import Mathlib

/-!
Verification of the gym-mcp command surface.

The MCP tool handlers are embedded from `src/main.py` and `src/server.py`.
The games package (`games/registry.py`, `games/types.py` and the per-kind
state machines) is not among the analysed sources; its behaviour is modelled
from the specification (sections 3, 4.1, 4.2, 7).
-/

namespace GymMcp

/-- Modelled from the spec: session status, `status ∈ {pending, in_progress, finished}`. -/
inductive Status where
  | pending
  | inProgress
  | finished
deriving DecidableEq, Repr

/-- String rendering of a status, as it would appear in a serialized snapshot. -/
def statusStr : Status → String
  | Status.pending => "pending"
  | Status.inProgress => "in_progress"
  | Status.finished => "finished"

/-- Modelled from the spec: a value in an action's open payload mapping
(`games/types.py` is not among the analysed sources). -/
inductive PValue where
  | int (n : Int)
  | str (s : String)
deriving DecidableEq, Repr

/-- An open payload mapping from string keys to values. -/
abbrev Payload := List (String × PValue)

/-- Modelled from the spec: `GameAction` from `games/types.py` — a kind-specific
type tag, an open payload mapping, and an acting player identifier. -/
structure GameAction where
  type : String
  payload : Payload
  player : String
deriving DecidableEq, Repr

/-- Kind-specific observable data of a snapshot: a 3x3 board (flattened,
index `row*3+col`, cell empty or holding a player's mark) with the turn index,
or a simulation adapter's last observation and accumulated reward. -/
inductive SnapData where
  | ttt (board : List (Option String)) (turn : Nat)
  | gym (obs : List Int) (totalReward : Int)
deriving DecidableEq, Repr

/-- Modelled from the spec: `Snapshot` — an immutable serializable description
of one session's observable state (id, kind, status, players, kind fields). -/
structure GameSnapshot where
  id : String
  type : String
  status : Status
  players : List String
  data : SnapData
deriving DecidableEq, Repr

/-- Comma-join a list of strings. -/
def joinComma : List String → String
  | [] => ""
  | [x] => x
  | x :: xs => x ++ "," ++ joinComma xs

/-- Render one board cell. -/
def cellStr : Option String → String
  | none => "_"
  | some p => p

/-- Render the kind-specific snapshot fields. -/
def SnapData.render : SnapData → String
  | SnapData.ttt b t =>
      "board=[" ++ joinComma (b.map cellStr) ++ "],turn=" ++ toString t
  | SnapData.gym obs r =>
      "obs=[" ++ joinComma (obs.map toString) ++ "],total_reward=" ++ toString r

/-- Serialization of a snapshot, standing for pydantic's `model_dump()` in the
handlers' f-strings. -/
def GameSnapshot.model_dump (s : GameSnapshot) : String :=
  "id=" ++ s.id ++ ",type=" ++ s.type ++ ",status=" ++ statusStr s.status ++
    ",players=[" ++ joinComma s.players ++ "]," ++ s.data.render

/-- Modelled from the spec: `Result` — success flag, new Snapshot or error;
exactly one of {Snapshot, error} populated. Field names follow the attribute
accesses in the handlers (`result.success`, `result.new_state`, `result.error`). -/
structure GameResult where
  success : Bool
  new_state : Option GameSnapshot
  error : Option String
deriving DecidableEq, Repr

/-- A successful result carrying a new snapshot. -/
def okResult (s : GameSnapshot) : GameResult :=
  { success := true, new_state := some s, error := none }

/-- A failed result carrying an error description. -/
def errResult (e : String) : GameResult :=
  { success := false, new_state := none, error := some e }

/-- Internal mutable data of a session's state machine. For the board game:
the grid and turn index. For a simulation adapter: the environment's initial
observation, the last observation, the accumulated reward, and a script of
the opaque environment's future `step` responses (observation, reward, done) —
the spec treats the wrapped environment as an opaque step contract, so the
model quantifies over its behaviour through this script. -/
inductive GameData where
  | ttt (board : List (Option String)) (turn : Nat)
  | gym (initObs : List Int) (obs : List Int) (totalReward : Int)
        (script : List (List Int × Int × Bool))
deriving DecidableEq, Repr

/-- Modelled from the spec: one game session, owning id, kind, players, status
and kind-specific state. `startCalls` and `actionsReceived` are ghost counters
recording how many times `start` was invoked and how many actions were
delivered via `make_move`; they let non-forwarding claims be stated. -/
structure Game where
  id : String
  type : String
  status : Status
  players : List String
  data : GameData
  startCalls : Nat
  actionsReceived : Nat
deriving DecidableEq, Repr

/-- Observable part of the kind-specific data. -/
def GameData.toSnap : GameData → SnapData
  | GameData.ttt b t => SnapData.ttt b t
  | GameData.gym _ obs r _ => SnapData.gym obs r

/-- Modelled from the spec: `current_state()` — pure, reflects the latest
committed state, never fails. Named after the handlers' `game.get_state()`. -/
def Game.get_state (g : Game) : GameSnapshot :=
  { id := g.id, type := g.type, status := g.status,
    players := g.players, data := g.data.toSnap }

/-- The registered kinds, from the registry's factory table (modelled from the
spec and the kinds the convenience commands address). -/
def availableGames : List String :=
  ["tic-tac-toe", "CartPole-v1", "MountainCar-v0", "ALE/Breakout-v5"]

/-- Declared discrete action-space size of each simulation kind. -/
def actionSpaceSize (t : String) : Nat :=
  if t = "CartPole-v1" then 2
  else if t = "MountainCar-v0" then 3
  else if t = "ALE/Breakout-v5" then 4
  else 0

/-- Required player arity per kind: two for the board game, one for a
simulation adapter. -/
def requiredPlayers : GameData → Nat
  | GameData.ttt _ _ => 2
  | GameData.gym _ _ _ _ => 1

/-- The action vocabulary accepted by each kind. -/
def Game.vocab (g : Game) : List String :=
  match g.data with
  | GameData.ttt _ _ => ["place_mark"]
  | GameData.gym _ _ _ _ => ["gym_step"]

/-- An empty 3x3 board. -/
def emptyBoard : List (Option String) := List.replicate 9 none

/-- Fresh kind-specific data for a newly created session of the given kind. -/
def initData (t : String) : GameData :=
  if t = "tic-tac-toe" then GameData.ttt emptyBoard 0
  else GameData.gym [0] [0] 0 []

/-- A newly created session in `pending` status. -/
def newGame (id t : String) : Game :=
  { id := id, type := t, status := Status.pending, players := [],
    data := initData t, startCalls := 0, actionsReceived := 0 }

/-- Modelled from the spec: `start(players)` — fails with `InvalidPlayers` if
the status is not `pending` or the arity is wrong; on success stores the
players, moves to `in_progress`, and for a simulation adapter invokes the
environment's reset and stores the initial observation. -/
def Game.start (g : Game) (players : List String) : GameResult × Game :=
  let g1 : Game := { g with startCalls := g.startCalls + 1 }
  if g.status ≠ Status.pending then
    (errResult "InvalidPlayers: game is not pending", g1)
  else if players.length ≠ requiredPlayers g.data then
    (errResult "InvalidPlayers: wrong number of players", g1)
  else
    let data2 : GameData :=
      match g.data with
      | GameData.ttt b t => GameData.ttt b t
      | GameData.gym i _ _ sc => GameData.gym i i 0 sc
    let g2 : Game := { g1 with status := Status.inProgress,
                               players := players, data := data2 }
    (okResult g2.get_state, g2)

/-- Modelled from the spec: `reset()` — always succeeds; the board game
returns to `pending` with an empty grid and the turn reset to the first
player; a simulation adapter re-invokes the environment's reset, clears the
accumulated reward and is immediately `in_progress`. -/
def Game.reset (g : Game) : GameResult × Game :=
  let g2 : Game :=
    match g.data with
    | GameData.ttt _ _ =>
        { g with status := Status.pending, data := GameData.ttt emptyBoard 0 }
    | GameData.gym i _ _ sc =>
        { g with status := Status.inProgress, data := GameData.gym i i 0 sc }
  (okResult g2.get_state, g2)

/-- The eight three-in-a-row lines of the 3x3 grid (flattened indices). -/
def winLines : List (Nat × Nat × Nat) :=
  [(0, 1, 2), (3, 4, 5), (6, 7, 8), (0, 3, 6), (1, 4, 7), (2, 5, 8),
   (0, 4, 8), (2, 4, 6)]

/-- Whether player `p` holds a complete row, column or diagonal. -/
def hasWin (b : List (Option String)) (p : String) : Bool :=
  winLines.any fun l =>
    b.getD l.1 none == some p && b.getD l.2.1 none == some p &&
      b.getD l.2.2 none == some p

/-- Modelled from the spec: `apply_action` — fails with `IllegalAction` when
the session is not `in_progress`, the tag is outside the kind's vocabulary,
the acting player is not a participant, it is not that player's turn (board
game), the coordinates are out of range, the cell is occupied, or the action
code is outside the declared action space; on success mutates state,
re-evaluates termination (win before draw), and returns the new snapshot.
Named after the handlers' `game.make_move(action)`. The ghost counter
`actionsReceived` is bumped on every invocation. -/
def Game.make_move (g : Game) (a : GameAction) : GameResult × Game :=
  let g1 : Game := { g with actionsReceived := g.actionsReceived + 1 }
  if g.status ≠ Status.inProgress then
    (errResult "IllegalAction: game is not in progress", g1)
  else if ¬ (g.vocab.contains a.type) then
    (errResult "IllegalAction: unknown action type", g1)
  else if ¬ (g.players.contains a.player) then
    (errResult "IllegalAction: player not in game", g1)
  else
    match g1.data with
    | GameData.ttt b t =>
      if g.players.getD t "" ≠ a.player then
        (errResult "IllegalAction: not your turn", g1)
      else
        match a.payload.lookup "row", a.payload.lookup "col" with
        | some (PValue.int rw), some (PValue.int cl) =>
          if rw < 0 ∨ 3 ≤ rw ∨ cl < 0 ∨ 3 ≤ cl then
            (errResult "IllegalAction: position out of range", g1)
          else
            let i := rw.toNat * 3 + cl.toNat
            if (b.getD i none).isSome then
              (errResult "IllegalAction: cell occupied", g1)
            else
              let b2 := b.set i (some a.player)
              let finished := hasWin b2 a.player || b2.all Option.isSome
              let g2 : Game :=
                { g1 with
                  status := if finished then Status.finished
                            else Status.inProgress,
                  data := GameData.ttt b2 (1 - t) }
              (okResult g2.get_state, g2)
        | _, _ => (errResult "IllegalAction: malformed payload", g1)
    | GameData.gym i o tr sc =>
      match a.payload.lookup "action" with
      | some (PValue.int n) =>
        if n < 0 ∨ (actionSpaceSize g.type : Int) ≤ n then
          (errResult "IllegalAction: action out of action space", g1)
        else
          let step := sc.headD (o, 0, false)
          let g2 : Game :=
            { g1 with
              status := if step.2.2 then Status.finished
                        else Status.inProgress,
              data := GameData.gym i step.1 (tr + step.2.1) sc.tail }
          (okResult g2.get_state, g2)
      | _ => (errResult "IllegalAction: malformed payload", g1)

/-- Modelled from the spec: the Session Registry — the live-session map keyed
by id plus a counter used to generate fresh ids. -/
structure GameRegistry where
  games : List (String × Game)
  nextId : Nat
deriving DecidableEq, Repr

/-- Modelled from the spec: `get(id)` — pure lookup, no mutation. Named after
the handlers' `registry.get_game(id)`. -/
def GameRegistry.get_game (r : GameRegistry) (id : String) : Option Game :=
  r.games.lookup id

/-- Modelled from the spec: `list_kinds()` — the registered kind names. -/
def GameRegistry.get_available_games (_ : GameRegistry) : List String :=
  availableGames

/-- Modelled from the spec: `list_active()` — mapping of active session id to
(kind, status). -/
def GameRegistry.get_active_games (r : GameRegistry) :
    List (String × String × String) :=
  r.games.map fun p => (p.1, p.2.type, statusStr p.2.status)

/-- Generated session id from the registry's counter. -/
def freshId (n : Nat) : String := "game-" ++ toString n

/-- Modelled from the spec: `create(kind_name, optional explicit_id)` — fails
with `UnknownKind` for an unregistered kind; with an explicit id, fails with
`DuplicateId` if that id is already live; otherwise generates a fresh id.
Instantiates the kind's state machine in `pending` status and inserts it into
the live-session map. -/
def GameRegistry.create_game (r : GameRegistry) (game_type : String)
    (game_id : Option String) : GameResult × GameRegistry :=
  if ¬ (availableGames.contains game_type) then
    (errResult ("UnknownKind: " ++ game_type), r)
  else
    match game_id with
    | some gid =>
      if (r.get_game gid).isSome then
        (errResult ("DuplicateId: " ++ gid), r)
      else
        let g := newGame gid game_type
        (okResult g.get_state,
         { games := (gid, g) :: r.games, nextId := r.nextId })
    | none =>
      let gid := freshId r.nextId
      let g := newGame gid game_type
      (okResult g.get_state,
       { games := (gid, g) :: r.games, nextId := r.nextId + 1 })

/-- Replace the value stored under a key (first occurrence) in the
live-session map; models in-place mutation of a session object held by the
registry. -/
def setAssoc : List (String × Game) → String → Game → List (String × Game)
  | [], _, _ => []
  | (k, v) :: rest, id, g =>
      if k = id then (k, g) :: rest else (k, v) :: setAssoc rest id g

/-- Write an updated session back into the registry. -/
def GameRegistry.setGame (r : GameRegistry) (id : String) (g : Game) :
    GameRegistry :=
  { games := setAssoc r.games id g, nextId := r.nextId }

/-- The dict built by the `list_games` handler: available game types, and the
active-game mapping when requested. -/
structure ListResult where
  available_games : List String
  active_games : Option (List (String × String × String))
deriving DecidableEq, Repr

/-- Render one active-game entry. -/
def activeEntryStr (p : String × String × String) : String :=
  p.1 ++ ":(" ++ p.2.1 ++ "," ++ p.2.2 ++ ")"

/-- Render the `list_games` result dict. -/
def ListResult.render (lr : ListResult) : String :=
  "available_games=[" ++ joinComma lr.available_games ++ "]" ++
    (match lr.active_games with
     | none => ""
     | some a => ",active_games=[" ++ joinComma (a.map activeEntryStr) ++ "]")

/-- The payload part of a rendered handler message: the dumped new snapshot on
success, the error description on failure. -/
def resultPayloadStr (res : GameResult) : String :=
  if res.success then
    (res.new_state.map GameSnapshot.model_dump).getD ""
  else
    res.error.getD ""

end GymMcp

namespace GymMcp.MainPy

open GymMcp

/-- The dict assembled by `list_games` in `src/main.py` (lines 20-25) before
rendering. -/
def list_games_result (registry : GameRegistry) (show_active : Bool) :
    ListResult :=
  { available_games := registry.get_available_games,
    active_games :=
      if show_active then some registry.get_active_games else none }

/-- Embedded from `src/main.py`, `list_games` (lines 17-27). -/
def list_games (registry : GameRegistry) (show_active : Bool) :
    String × GameRegistry :=
  ("Games: " ++ (list_games_result registry show_active).render, registry)

/-- Embedded from `src/main.py`, `start_game` (lines 30-45). The `none`
branches stand for the `AttributeError` Python would raise if the created
session could not be looked up; they are proven unreachable. -/
def start_game (registry : GameRegistry) (game_type : String)
    (players : List String) (game_id : Option String) :
    String × GameRegistry :=
  let pr := registry.create_game game_type game_id
  let result := pr.1
  let r1 := pr.2
  if result.success then
    match result.new_state with
    | none => ("AttributeError", r1)
    | some snap =>
      match r1.get_game snap.id with
      | none => ("AttributeError", r1)
      | some game =>
        let ps := game.start players
        let start_result := ps.1
        let r2 := r1.setGame snap.id ps.2
        if start_result.success then
          ("Game started: " ++
             (start_result.new_state.map GameSnapshot.model_dump).getD "", r2)
        else
          ("Error starting game: " ++ start_result.error.getD "", r2)
  else
    ("Error: " ++ result.error.getD "", r1)

/-- Embedded from `src/main.py`, `make_move` (lines 48-61). -/
def make_move (registry : GameRegistry) (game_id : String)
    (action_type : String) (payload : Payload) (player : String) :
    String × GameRegistry :=
  match registry.get_game game_id with
  | none => ("Game " ++ game_id ++ " not found", registry)
  | some game =>
    let action : GameAction :=
      { type := action_type, payload := payload, player := player }
    let pm := game.make_move action
    let result := pm.1
    let r2 := registry.setGame game_id pm.2
    if result.success then
      ("Move successful: " ++
         (result.new_state.map GameSnapshot.model_dump).getD "", r2)
    else
      ("Move failed: " ++ result.error.getD "", r2)

/-- Embedded from `src/main.py`, `get_game_state` (lines 64-72). -/
def get_game_state (registry : GameRegistry) (game_id : String) :
    String × GameRegistry :=
  match registry.get_game game_id with
  | none => ("Game " ++ game_id ++ " not found", registry)
  | some game =>
    ("Game state: " ++ (game.get_state).model_dump, registry)

/-- Embedded from `src/main.py`, `reset_game` (lines 75-86). -/
def reset_game (registry : GameRegistry) (game_id : String) :
    String × GameRegistry :=
  match registry.get_game game_id with
  | none => ("Game " ++ game_id ++ " not found", registry)
  | some game =>
    let pm := game.reset
    let result := pm.1
    let r2 := registry.setGame game_id pm.2
    if result.success then
      ("Game reset: " ++
         (result.new_state.map GameSnapshot.model_dump).getD "", r2)
    else
      ("Reset failed: " ++ result.error.getD "", r2)

/-- Embedded from `src/main.py`, `tic_tac_toe_place_mark` (lines 89-106):
rejects a missing session or one whose `type` is not `"tic-tac-toe"`, then
forwards a `place_mark` action with payload `{row, col}`. -/
def tic_tac_toe_place_mark (registry : GameRegistry) (game_id : String)
    (row col : Int) (player : String) : String × GameRegistry :=
  match registry.get_game game_id with
  | none => ("Tic-tac-toe game " ++ game_id ++ " not found", registry)
  | some game =>
    if game.type ≠ "tic-tac-toe" then
      ("Tic-tac-toe game " ++ game_id ++ " not found", registry)
    else
      let action : GameAction :=
        { type := "place_mark",
          payload := [("row", PValue.int row), ("col", PValue.int col)],
          player := player }
      let pm := game.make_move action
      let result := pm.1
      let r2 := registry.setGame game_id pm.2
      if result.success then
        ("Mark placed: " ++
           (result.new_state.map GameSnapshot.model_dump).getD "", r2)
      else
        ("Failed to place mark: " ++ result.error.getD "", r2)

/-- Embedded from `src/main.py`, `gym_step` (lines 110-123): checks only that
the session exists — there is no kind check — then forwards a `gym_step`
action with payload `{action}`. -/
def gym_step (registry : GameRegistry) (game_id : String) (action : PValue)
    (player : String) : String × GameRegistry :=
  match registry.get_game game_id with
  | none => ("Game " ++ game_id ++ " not found", registry)
  | some game =>
    let action_obj : GameAction :=
      { type := "gym_step", payload := [("action", action)], player := player }
    let pm := game.make_move action_obj
    let result := pm.1
    let r2 := registry.setGame game_id pm.2
    if result.success then
      ("Step successful: " ++
         (result.new_state.map GameSnapshot.model_dump).getD "", r2)
    else
      ("Step failed: " ++ result.error.getD "", r2)

/-- Embedded from `src/main.py`, `gym_reset` (lines 126-137): resets any
existing session, with no kind check. -/
def gym_reset (registry : GameRegistry) (game_id : String) :
    String × GameRegistry :=
  match registry.get_game game_id with
  | none => ("Game " ++ game_id ++ " not found", registry)
  | some game =>
    let pm := game.reset
    let result := pm.1
    let r2 := registry.setGame game_id pm.2
    if result.success then
      ("Environment reset: " ++
         (result.new_state.map GameSnapshot.model_dump).getD "", r2)
    else
      ("Reset failed: " ++ result.error.getD "", r2)

/-- Shared shape of the nine fixed-code simulation convenience commands
(`src/main.py` lines 141-284): check existence and exact kind, then forward a
`gym_step` action with the fixed code. Parameters: the required kind, the
not-found message prefix, the fixed action code, and the success prefix. -/
def gymConvenience (kind notFoundPrefix : String) (code : Int)
    (okPrefix failPrefix : String) (registry : GameRegistry)
    (game_id player : String) : String × GameRegistry :=
  match registry.get_game game_id with
  | none => (notFoundPrefix ++ game_id ++ " not found", registry)
  | some game =>
    if game.type ≠ kind then
      (notFoundPrefix ++ game_id ++ " not found", registry)
    else
      let action_obj : GameAction :=
        { type := "gym_step", payload := [("action", PValue.int code)],
          player := player }
      let pm := game.make_move action_obj
      let result := pm.1
      let r2 := registry.setGame game_id pm.2
      if result.success then
        (okPrefix ++
           (result.new_state.map GameSnapshot.model_dump).getD "", r2)
      else
        (failPrefix ++ result.error.getD "", r2)

/-- Embedded from `src/main.py`, `cartpole_move_left` (lines 142-154). -/
def cartpole_move_left : GameRegistry → String → String →
    String × GameRegistry :=
  gymConvenience "CartPole-v1" "CartPole game " 0 "Moved left: "
    "Move failed: "

/-- Embedded from `src/main.py`, `cartpole_move_right` (lines 157-170). -/
def cartpole_move_right : GameRegistry → String → String →
    String × GameRegistry :=
  gymConvenience "CartPole-v1" "CartPole game " 1 "Moved right: "
    "Move failed: "

/-- Embedded from `src/main.py`, `mountain_car_push_left` (lines 174-187). -/
def mountain_car_push_left : GameRegistry → String → String →
    String × GameRegistry :=
  gymConvenience "MountainCar-v0" "MountainCar game " 0 "Pushed left: "
    "Move failed: "

/-- Embedded from `src/main.py`, `mountain_car_no_push` (lines 190-203). -/
def mountain_car_no_push : GameRegistry → String → String →
    String × GameRegistry :=
  gymConvenience "MountainCar-v0" "MountainCar game " 1 "No push: "
    "Move failed: "

/-- Embedded from `src/main.py`, `mountain_car_push_right` (lines 206-219). -/
def mountain_car_push_right : GameRegistry → String → String →
    String × GameRegistry :=
  gymConvenience "MountainCar-v0" "MountainCar game " 2 "Pushed right: "
    "Move failed: "

/-- Embedded from `src/main.py`, `breakout_noop` (lines 223-236). -/
def breakout_noop : GameRegistry → String → String →
    String × GameRegistry :=
  gymConvenience "ALE/Breakout-v5" "Breakout game " 0 "No-op: "
    "Action failed: "

/-- Embedded from `src/main.py`, `breakout_fire` (lines 239-252). -/
def breakout_fire : GameRegistry → String → String →
    String × GameRegistry :=
  gymConvenience "ALE/Breakout-v5" "Breakout game " 1 "Fired: "
    "Action failed: "

/-- Embedded from `src/main.py`, `breakout_right` (lines 255-268). -/
def breakout_right : GameRegistry → String → String →
    String × GameRegistry :=
  gymConvenience "ALE/Breakout-v5" "Breakout game " 2 "Moved right: "
    "Action failed: "

/-- Embedded from `src/main.py`, `breakout_left` (lines 271-284). -/
def breakout_left : GameRegistry → String → String →
    String × GameRegistry :=
  gymConvenience "ALE/Breakout-v5" "Breakout game " 3 "Moved left: "
    "Action failed: "

end GymMcp.MainPy

namespace GymMcp.ServerPy

open GymMcp

/-- The dict assembled by `list_games` in `src/server.py` (lines 19-24). -/
def list_games_result (registry : GameRegistry) (show_active : Bool) :
    ListResult :=
  { available_games := registry.get_available_games,
    active_games :=
      if show_active then some registry.get_active_games else none }

/-- Embedded from `src/server.py`, `list_games` (lines 16-26). -/
def list_games (registry : GameRegistry) (show_active : Bool) :
    String × GameRegistry :=
  ("Games: " ++ (list_games_result registry show_active).render, registry)

/-- Embedded from `src/server.py`, `start_game` (lines 29-44). -/
def start_game (registry : GameRegistry) (game_type : String)
    (players : List String) (game_id : Option String) :
    String × GameRegistry :=
  let pr := registry.create_game game_type game_id
  let result := pr.1
  let r1 := pr.2
  if result.success then
    match result.new_state with
    | none => ("AttributeError", r1)
    | some snap =>
      match r1.get_game snap.id with
      | none => ("AttributeError", r1)
      | some game =>
        let ps := game.start players
        let start_result := ps.1
        let r2 := r1.setGame snap.id ps.2
        if start_result.success then
          ("Game started: " ++
             (start_result.new_state.map GameSnapshot.model_dump).getD "", r2)
        else
          ("Error starting game: " ++ start_result.error.getD "", r2)
  else
    ("Error: " ++ result.error.getD "", r1)

/-- Embedded from `src/server.py`, `make_move` (lines 47-60). -/
def make_move (registry : GameRegistry) (game_id : String)
    (action_type : String) (payload : Payload) (player : String) :
    String × GameRegistry :=
  match registry.get_game game_id with
  | none => ("Game " ++ game_id ++ " not found", registry)
  | some game =>
    let action : GameAction :=
      { type := action_type, payload := payload, player := player }
    let pm := game.make_move action
    let result := pm.1
    let r2 := registry.setGame game_id pm.2
    if result.success then
      ("Move successful: " ++
         (result.new_state.map GameSnapshot.model_dump).getD "", r2)
    else
      ("Move failed: " ++ result.error.getD "", r2)

/-- Embedded from `src/server.py`, `get_game_state` (lines 63-71). -/
def get_game_state (registry : GameRegistry) (game_id : String) :
    String × GameRegistry :=
  match registry.get_game game_id with
  | none => ("Game " ++ game_id ++ " not found", registry)
  | some game =>
    ("Game state: " ++ (game.get_state).model_dump, registry)

/-- Embedded from `src/server.py`, `reset_game` (lines 74-85). -/
def reset_game (registry : GameRegistry) (game_id : String) :
    String × GameRegistry :=
  match registry.get_game game_id with
  | none => ("Game " ++ game_id ++ " not found", registry)
  | some game =>
    let pm := game.reset
    let result := pm.1
    let r2 := registry.setGame game_id pm.2
    if result.success then
      ("Game reset: " ++
         (result.new_state.map GameSnapshot.model_dump).getD "", r2)
    else
      ("Reset failed: " ++ result.error.getD "", r2)

/-- Embedded from `src/server.py`, `tic_tac_toe_place_mark` (lines 88-105). -/
def tic_tac_toe_place_mark (registry : GameRegistry) (game_id : String)
    (row col : Int) (player : String) : String × GameRegistry :=
  match registry.get_game game_id with
  | none => ("Tic-tac-toe game " ++ game_id ++ " not found", registry)
  | some game =>
    if game.type ≠ "tic-tac-toe" then
      ("Tic-tac-toe game " ++ game_id ++ " not found", registry)
    else
      let action : GameAction :=
        { type := "place_mark",
          payload := [("row", PValue.int row), ("col", PValue.int col)],
          player := player }
      let pm := game.make_move action
      let result := pm.1
      let r2 := registry.setGame game_id pm.2
      if result.success then
        ("Mark placed: " ++
           (result.new_state.map GameSnapshot.model_dump).getD "", r2)
      else
        ("Failed to place mark: " ++ result.error.getD "", r2)

end GymMcp.ServerPy

namespace GymMcp

/-- A live tic-tac-toe session used as a concrete test fixture. -/
def tttLive : Game :=
  { id := "t1", type := "tic-tac-toe", status := Status.inProgress,
    players := ["alice", "bob"], data := GameData.ttt emptyBoard 0,
    startCalls := 1, actionsReceived := 0 }

/-- A registry holding the live tic-tac-toe fixture. -/
def regT : GameRegistry := { games := [("t1", tttLive)], nextId := 0 }

/-- A live CartPole session used as a concrete test fixture. -/
def cartLive : Game :=
  { id := "c1", type := "CartPole-v1", status := Status.inProgress,
    players := ["alice"], data := GameData.gym [0] [0] 0 [],
    startCalls := 1, actionsReceived := 0 }

/-- A registry holding the live CartPole fixture. -/
def regC : GameRegistry := { games := [("c1", cartLive)], nextId := 0 }

/-- The snapshot returned by creating a tic-tac-toe session in an empty
registry with a generated id. -/
def createdSnap : GameSnapshot := (newGame "game-0" "tic-tac-toe").get_state

/-- The registry after that creation. -/
def regAfterCreate : GameRegistry :=
  { games := [("game-0", newGame "game-0" "tic-tac-toe")], nextId := 1 }

/-- The invariant claimed of every `Result`: exactly one of
{new snapshot, error} is populated, as selected by the success flag. -/
def exactlyOne (res : GameResult) : Prop :=
  (res.success = true → res.new_state.isSome = true ∧ res.error = none) ∧
  (res.success = false → res.error.isSome = true ∧ res.new_state = none)

/-- The action `tic_tac_toe_place_mark` builds. -/
def placeMarkAction (row col : Int) (player : String) : GameAction :=
  { type := "place_mark",
    payload := [("row", PValue.int row), ("col", PValue.int col)],
    player := player }

/-- The action `cartpole_move_left` builds. -/
def cartLeftAction (player : String) : GameAction :=
  { type := "gym_step", payload := [("action", PValue.int 0)],
    player := player }

end GymMcp

namespace GymMcp

/-- Helper: looking up a key after overwriting it returns the new value,
provided the key was present. -/
theorem lookup_setAssoc_self (l : List (String × Game)) (id : String)
    (g g2 : Game) (h : l.lookup id = some g) :
    (setAssoc l id g2).lookup id = some g2 := by
  induction l with
  | nil => simp [List.lookup] at h
  | cons hd tl ih =>
    obtain ⟨k, v⟩ := hd
    by_cases hk : k = id
    · subst hk
      simp [setAssoc, List.lookup]
    · have hb : (id == k) = false :=
        beq_eq_false_iff_ne.mpr fun he => hk he.symm
      simp only [List.lookup, hb] at h
      simp only [setAssoc, hk, if_false, List.lookup, hb]
      exact ih h

/-- Helper: a successful result populates the snapshot and not the error. -/
theorem exactlyOne_okResult (s : GameSnapshot) : exactlyOne (okResult s) := by
  constructor <;> intro h <;> simp [okResult] at h ⊢

/-- Helper: a failed result populates the error and not the snapshot. -/
theorem exactlyOne_errResult (e : String) : exactlyOne (errResult e) := by
  constructor <;> intro h <;> simp [errResult] at h ⊢

/-- C3: for a session id not in the live-session map, `make_move`,
`get_game_state` and `reset_game` each return the "Game {id} not found"
message naming that id, and the registry (hence every live session) is left
unchanged. -/
theorem missing_session_not_found (r : GameRegistry)
    (id action_type : String) (pl : Payload) (p : String)
    (h : r.get_game id = none) :
    MainPy.make_move r id action_type pl p =
      ("Game " ++ id ++ " not found", r) ∧
    MainPy.get_game_state r id = ("Game " ++ id ++ " not found", r) ∧
    MainPy.reset_game r id = ("Game " ++ id ++ " not found", r) := by
  refine ⟨?_, ?_, ?_⟩ <;>
    simp only [MainPy.make_move, MainPy.get_game_state, MainPy.reset_game, h]

/-- Witness for C3 at a concrete registry and an unmapped id. -/
theorem missing_session_not_found_witness :
    regT.get_game "zz" = none ∧
    MainPy.make_move regT "zz" "x" [] "p" = ("Game zz not found", regT) := by
  have h := missing_session_not_found regT "zz" "x" [] "p" (by decide)
  exact ⟨by decide, h.1.trans (by decide)⟩

/-- C5: `list_games` leaves the registry unchanged and renders a result that
always carries the available kind names and carries the active-session
mapping (id to kind and status) exactly when `show_active` is true. -/
theorem list_games_spec (r : GameRegistry) (b : Bool) :
    MainPy.list_games r b =
      ("Games: " ++ (MainPy.list_games_result r b).render, r) ∧
    (MainPy.list_games_result r b).available_games =
      r.get_available_games ∧
    ((MainPy.list_games_result r b).active_games =
        some r.get_active_games ↔ b = true) ∧
    ((MainPy.list_games_result r b).active_games = none ↔ b = false) := by
  refine ⟨rfl, rfl, ?_, ?_⟩ <;> cases b <;>
    simp [MainPy.list_games_result]

/-- C8: for a live session, `get_game_state` returns the session's current
snapshot, takes the success path, and leaves the registry (hence the session)
unchanged. -/
theorem get_game_state_live (r : GameRegistry) (id : String) (g : Game)
    (h : r.get_game id = some g) :
    MainPy.get_game_state r id =
      ("Game state: " ++ (g.get_state).model_dump, r) := by
  simp only [MainPy.get_game_state, h]

/-- Witness for C8 at the tic-tac-toe fixture. -/
theorem get_game_state_live_witness :
    regT.get_game "t1" = some tttLive ∧
    (MainPy.get_game_state regT "t1").2 = regT := by
  have h := get_game_state_live regT "t1" tttLive (by decide)
  exact ⟨by decide, by rw [h]⟩

/-- C9: the six handlers defined in both `src/main.py` and `src/server.py`
are equal as functions: same reply string and same registry effect on every
input. -/
theorem main_server_handlers_equal :
    MainPy.list_games = ServerPy.list_games ∧
    MainPy.start_game = ServerPy.start_game ∧
    MainPy.make_move = ServerPy.make_move ∧
    MainPy.get_game_state = ServerPy.get_game_state ∧
    MainPy.reset_game = ServerPy.reset_game ∧
    MainPy.tic_tac_toe_place_mark = ServerPy.tic_tac_toe_place_mark :=
  ⟨rfl, rfl, rfl, rfl, rfl, rfl⟩

end GymMcp

namespace GymMcp

/-- Helper: a failed creation leaves the registry unchanged. -/
theorem create_game_fail_frame (r : GameRegistry) (gt : String)
    (oid : Option String) (h : ((r.create_game gt oid).1).success = false) :
    (r.create_game gt oid).2 = r := by
  by_cases hav : gt ∈ availableGames
  · cases oid with
    | none =>
      exfalso
      simp [GameRegistry.create_game, hav, okResult] at h
    | some gid =>
      by_cases hdup : (r.get_game gid).isSome = true
      · simp [GameRegistry.create_game, hav, hdup]
      · exfalso
        simp [GameRegistry.create_game, hav, hdup, okResult] at h
  · simp [GameRegistry.create_game, hav]

/-- Helper: after a successful creation, the returned snapshot's id is live
and maps to the freshly created pending session of the requested kind. -/
theorem create_game_ok_lookup (r : GameRegistry) (gt : String)
    (oid : Option String) (s : GameSnapshot) (r1 : GameRegistry)
    (hc : r.create_game gt oid = (okResult s, r1)) :
    r1.get_game s.id = some (newGame s.id gt) := by
  by_cases hav : gt ∈ availableGames
  · cases oid with
    | none =>
      simp [GameRegistry.create_game, hav, okResult, Prod.mk.injEq] at hc
      obtain ⟨h1, h2⟩ := hc
      have hsid : s.id = freshId r.nextId := by
        rw [← h1]
        rfl
      subst h2
      rw [hsid]
      simp [GameRegistry.get_game, List.lookup]
    | some gid =>
      by_cases hdup : (r.get_game gid).isSome = true
      · exfalso
        simp [GameRegistry.create_game, hav, hdup, okResult, errResult] at hc
      · simp [GameRegistry.create_game, hav, hdup, okResult,
          Prod.mk.injEq] at hc
        obtain ⟨h1, h2⟩ := hc
        have hsid : s.id = gid := by
          rw [← h1]
          rfl
        subst h2
        rw [hsid]
        simp [GameRegistry.get_game, List.lookup]
  · exfalso
    simp [GameRegistry.create_game, hav, okResult, errResult] at hc

/-- Helper: a failed `start` only bumps the ghost counter; in particular the
status (and all real state) is unchanged. -/
theorem start_fail_state (g : Game) (ps : List String)
    (h : ((g.start ps).1).success = false) :
    (g.start ps).2 = { g with startCalls := g.startCalls + 1 } := by
  by_cases h1 : g.status = Status.pending
  · by_cases h2 : ps.length = requiredPlayers g.data
    · exfalso
      simp [Game.start, h1, h2, okResult] at h
    · simp [Game.start, h1, h2]
  · simp [Game.start, h1]

/-- C4: when session creation fails, `start_game` reports that creation error,
the registry is unchanged, and no session's `start` is ever invoked (every
live session keeps its ghost start counter). -/
theorem start_game_create_error (r : GameRegistry) (gt : String)
    (ps : List String) (oid : Option String)
    (h : ((r.create_game gt oid).1).success = false) :
    MainPy.start_game r gt ps oid =
      ("Error: " ++ ((r.create_game gt oid).1.error.getD ""), r) ∧
    ∀ i g, r.get_game i = some g →
      ∃ g2, ((MainPy.start_game r gt ps oid).2).get_game i = some g2 ∧
        g2.startCalls = g.startCalls := by
  have hf := create_game_fail_frame r gt oid h
  have h1 : MainPy.start_game r gt ps oid =
      ("Error: " ++ ((r.create_game gt oid).1.error.getD ""), r) := by
    simp only [MainPy.start_game, h, Bool.false_eq_true, if_false, hf]
  refine ⟨h1, fun i g hg => ⟨g, ?_, rfl⟩⟩
  rw [h1]
  exact hg

/-- Witness for C4: an unregistered kind makes creation fail and `start_game`
reports the `UnknownKind` error without touching the registry. -/
theorem start_game_create_error_witness :
    ((regT.create_game "nope" none).1).success = false ∧
    MainPy.start_game regT "nope" ["a"] none =
      ("Error: UnknownKind: nope", regT) := by
  have h := start_game_create_error regT "nope" ["a"] none (by decide)
  exact ⟨by decide, h.1.trans (by decide)⟩

/-- C6: for a live session, `reset` always succeeds, `reset_game` takes the
success path and stores the reset session, and the result is the kind's fresh
starting configuration (`pending` empty board for the board game, fresh
`in_progress` observation with cleared reward for a simulation adapter). -/
theorem reset_game_live_succeeds (r : GameRegistry) (id : String) (g : Game)
    (h : r.get_game id = some g) :
    ((g.reset).1).success = true ∧
    MainPy.reset_game r id =
      ("Game reset: " ++ ((g.reset).2.get_state).model_dump,
       r.setGame id (g.reset).2) ∧
    (match g.data with
     | GameData.ttt _ _ =>
         (g.reset).2.status = Status.pending ∧
         (g.reset).2.data = GameData.ttt emptyBoard 0
     | GameData.gym i _ _ sc =>
         (g.reset).2.status = Status.inProgress ∧
         (g.reset).2.data = GameData.gym i i 0 sc) := by
  obtain ⟨gid, gt, st, pls, d, sc0, ar⟩ := g
  cases d with
  | ttt b t =>
    refine ⟨rfl, ?_, rfl, rfl⟩
    simp [MainPy.reset_game, h, Game.reset, okResult]
  | gym i o tr sc =>
    refine ⟨rfl, ?_, rfl, rfl⟩
    simp [MainPy.reset_game, h, Game.reset, okResult]

/-- Witness for C6 at the live tic-tac-toe fixture. -/
theorem reset_game_live_succeeds_witness :
    regT.get_game "t1" = some tttLive ∧
    ((tttLive.reset).1).success = true := by
  have h := reset_game_live_succeeds regT "t1" tttLive (by decide)
  exact ⟨by decide, h.1⟩

/-- C7: every `Result` produced by the mutating operations (`start`,
`make_move`, `reset`, and the registry's `create_game`) populates exactly one
of the new snapshot and the error, as selected by the success flag. -/
theorem results_exactly_one (g : Game) (ps : List String) (a : GameAction)
    (r : GameRegistry) (gt : String) (oid : Option String) :
    exactlyOne ((g.start ps).1) ∧ exactlyOne ((g.make_move a).1) ∧
    exactlyOne ((g.reset).1) ∧ exactlyOne ((r.create_game gt oid).1) := by
  refine ⟨?_, ?_, ?_, ?_⟩
  · unfold Game.start
    dsimp only
    repeat' split
    all_goals first
      | exact exactlyOne_errResult _
      | exact exactlyOne_okResult _
  · unfold Game.make_move
    dsimp only
    repeat' split
    all_goals first
      | exact exactlyOne_errResult _
      | exact exactlyOne_okResult _
  · unfold Game.reset
    dsimp only
    repeat' split
    all_goals first
      | exact exactlyOne_errResult _
      | exact exactlyOne_okResult _
  · unfold GameRegistry.create_game
    dsimp only
    repeat' split
    all_goals first
      | exact exactlyOne_errResult _
      | exact exactlyOne_okResult _

end GymMcp

namespace GymMcp

/-- C10: when creation succeeds but the subsequent `start` fails, `start_game`
reports the start error while the newly created session remains live in the
registry, still in `pending` status — creation is not rolled back. -/
theorem start_game_no_rollback (r r1 : GameRegistry) (gt : String)
    (ps : List String) (oid : Option String) (s : GameSnapshot)
    (hc : r.create_game gt oid = (okResult s, r1))
    (hs : (((newGame s.id gt).start ps).1).success = false) :
    MainPy.start_game r gt ps oid =
      ("Error starting game: " ++
         (((newGame s.id gt).start ps).1.error.getD ""),
       r1.setGame s.id ((newGame s.id gt).start ps).2) ∧
    ∃ g2, ((MainPy.start_game r gt ps oid).2).get_game s.id = some g2 ∧
      g2.status = Status.pending := by
  have hl : r1.get_game s.id = some (newGame s.id gt) :=
    create_game_ok_lookup r gt oid s r1 hc
  have hmain : MainPy.start_game r gt ps oid =
      ("Error starting game: " ++
         (((newGame s.id gt).start ps).1.error.getD ""),
       r1.setGame s.id ((newGame s.id gt).start ps).2) := by
    simp only [MainPy.start_game, hc, okResult, hl, hs, Bool.false_eq_true,
      if_false, if_true]
  refine ⟨hmain, ⟨((newGame s.id gt).start ps).2, ?_, ?_⟩⟩
  · rw [hmain]
    exact lookup_setAssoc_self r1.games s.id _ _ hl
  · rw [start_fail_state _ _ hs]
    rfl

/-- Witness for C10: creating a tic-tac-toe session and starting it with an
empty player list fails the start, yet the session stays live and pending. -/
theorem start_game_no_rollback_witness :
    (({ games := [], nextId := 0 } : GameRegistry).create_game
        "tic-tac-toe" none) = (okResult createdSnap, regAfterCreate) ∧
    ∃ g2, ((MainPy.start_game { games := [], nextId := 0 }
        "tic-tac-toe" [] none).2).get_game createdSnap.id = some g2 ∧
      g2.status = Status.pending := by
  have h := start_game_no_rollback { games := [], nextId := 0 }
    regAfterCreate "tic-tac-toe" [] none createdSnap (by decide) (by decide)
  exact ⟨by decide, h.2⟩

/-- C1 counterexample: `gym_step` performs no kind check — called on a live
tic-tac-toe session it forwards the `gym_step` action to that session (the
session's ghost action counter increments) and reports the session's
`IllegalAction` error, not a kind-mismatch rejection. -/
theorem gym_step_forwards_wrong_kind_cex :
    (MainPy.gym_step regT "t1" (PValue.int 0) "alice").1 =
      "Step failed: IllegalAction: unknown action type" ∧
    ((MainPy.gym_step regT "t1" (PValue.int 0) "alice").2).get_game "t1" =
      some { tttLive with actionsReceived := 1 } :=
  ⟨rfl, rfl⟩

/-- Helper: the shared wrong-kind rejection of the fixed-code simulation
convenience commands. -/
theorem gymConvenience_wrong_kind (kind nf : String) (code : Int)
    (okP fp : String) (r : GameRegistry) (id p : String) (g : Game)
    (hg : r.get_game id = some g) (ht : g.type ≠ kind) :
    MainPy.gymConvenience kind nf code okP fp r id p =
      (nf ++ id ++ " not found", r) := by
  simp only [MainPy.gymConvenience, hg]
  rw [if_pos ht]

/-- C1 (amended): each of the ten convenience commands that fix one kind
rejects a call whose session is live but of a different kind, returning the
command's "…game {id} not found" message — the same message used for a
missing session, not a distinct KindMismatch error — with the registry (and
hence every session, ghost counters included) unchanged, so no action is
forwarded. `gym_step` is excluded: it has no kind check (see the
counterexample). -/
theorem convenience_wrong_kind_rejects (r : GameRegistry) (id p : String)
    (row col : Int) (g : Game) (hg : r.get_game id = some g) :
    (g.type ≠ "tic-tac-toe" →
        MainPy.tic_tac_toe_place_mark r id row col p =
          ("Tic-tac-toe game " ++ id ++ " not found", r)) ∧
    (g.type ≠ "CartPole-v1" →
        MainPy.cartpole_move_left r id p =
          ("CartPole game " ++ id ++ " not found", r) ∧
        MainPy.cartpole_move_right r id p =
          ("CartPole game " ++ id ++ " not found", r)) ∧
    (g.type ≠ "MountainCar-v0" →
        MainPy.mountain_car_push_left r id p =
          ("MountainCar game " ++ id ++ " not found", r) ∧
        MainPy.mountain_car_no_push r id p =
          ("MountainCar game " ++ id ++ " not found", r) ∧
        MainPy.mountain_car_push_right r id p =
          ("MountainCar game " ++ id ++ " not found", r)) ∧
    (g.type ≠ "ALE/Breakout-v5" →
        MainPy.breakout_noop r id p =
          ("Breakout game " ++ id ++ " not found", r) ∧
        MainPy.breakout_fire r id p =
          ("Breakout game " ++ id ++ " not found", r) ∧
        MainPy.breakout_right r id p =
          ("Breakout game " ++ id ++ " not found", r) ∧
        MainPy.breakout_left r id p =
          ("Breakout game " ++ id ++ " not found", r)) := by
  refine ⟨?_, ?_, ?_, ?_⟩
  · intro ht
    simp only [MainPy.tic_tac_toe_place_mark, hg]
    rw [if_pos ht]
  · intro ht
    exact ⟨gymConvenience_wrong_kind _ _ _ _ _ r id p g hg ht,
           gymConvenience_wrong_kind _ _ _ _ _ r id p g hg ht⟩
  · intro ht
    exact ⟨gymConvenience_wrong_kind _ _ _ _ _ r id p g hg ht,
           gymConvenience_wrong_kind _ _ _ _ _ r id p g hg ht,
           gymConvenience_wrong_kind _ _ _ _ _ r id p g hg ht⟩
  · intro ht
    exact ⟨gymConvenience_wrong_kind _ _ _ _ _ r id p g hg ht,
           gymConvenience_wrong_kind _ _ _ _ _ r id p g hg ht,
           gymConvenience_wrong_kind _ _ _ _ _ r id p g hg ht,
           gymConvenience_wrong_kind _ _ _ _ _ r id p g hg ht⟩

/-- Witness for C1's amended theorem: a tic-tac-toe command aimed at a live
CartPole session, and a Breakout command aimed at a live tic-tac-toe
session, are both rejected with the registry untouched. -/
theorem convenience_wrong_kind_rejects_witness :
    MainPy.tic_tac_toe_place_mark regC "c1" 0 0 "alice" =
      ("Tic-tac-toe game c1 not found", regC) ∧
    MainPy.breakout_noop regT "t1" "alice" =
      ("Breakout game t1 not found", regT) := by
  have h1 := convenience_wrong_kind_rejects regC "c1" "alice" 0 0 cartLive
    (by decide)
  have h2 := convenience_wrong_kind_rejects regT "t1" "alice" 0 0 tttLive
    (by decide)
  exact ⟨(h1.1 (by decide)).trans (by decide),
         ((h2.2.2.2 (by decide)).1).trans (by decide)⟩

/-- C2 counterexample: on the same live tic-tac-toe session and the same
placement, `tic_tac_toe_place_mark` and the corresponding `make_move` call
return different reply strings (the prefixes differ), so the convenience
command does not literally equal `make_move`. -/
theorem convenience_not_identical_cex :
    (MainPy.tic_tac_toe_place_mark regT "t1" 0 0 "alice").1 ≠
      (MainPy.make_move regT "t1" "place_mark"
        [("row", PValue.int 0), ("col", PValue.int 0)] "alice").1 := by
  decide

/-- C2 (amended): for a live session of the command's kind, the convenience
command forwards exactly the `GameAction` that `make_move` builds from the
fixed tag and payload: the registry effect is identical, and both replies are
rendered from the same underlying result payload, differing only in the
message prefix. -/
theorem convenience_forwards_same_action (r : GameRegistry) (id p : String)
    (row col : Int) (g : Game) (hg : r.get_game id = some g) :
    (g.type = "tic-tac-toe" →
      (MainPy.tic_tac_toe_place_mark r id row col p).2 =
        (MainPy.make_move r id "place_mark"
          [("row", PValue.int row), ("col", PValue.int col)] p).2 ∧
      (MainPy.tic_tac_toe_place_mark r id row col p).1 =
        (if ((g.make_move (placeMarkAction row col p)).1).success
         then "Mark placed: " else "Failed to place mark: ") ++
          resultPayloadStr ((g.make_move (placeMarkAction row col p)).1) ∧
      (MainPy.make_move r id "place_mark"
          [("row", PValue.int row), ("col", PValue.int col)] p).1 =
        (if ((g.make_move (placeMarkAction row col p)).1).success
         then "Move successful: " else "Move failed: ") ++
          resultPayloadStr ((g.make_move (placeMarkAction row col p)).1)) ∧
    (g.type = "CartPole-v1" →
      (MainPy.cartpole_move_left r id p).2 =
        (MainPy.make_move r id "gym_step" [("action", PValue.int 0)] p).2 ∧
      (MainPy.cartpole_move_left r id p).1 =
        (if ((g.make_move (cartLeftAction p)).1).success
         then "Moved left: " else "Move failed: ") ++
          resultPayloadStr ((g.make_move (cartLeftAction p)).1) ∧
      (MainPy.make_move r id "gym_step" [("action", PValue.int 0)] p).1 =
        (if ((g.make_move (cartLeftAction p)).1).success
         then "Move successful: " else "Move failed: ") ++
          resultPayloadStr ((g.make_move (cartLeftAction p)).1)) := by
  constructor
  · intro ht
    have hne : ¬ (g.type ≠ "tic-tac-toe") := fun hcon => hcon ht
    simp only [MainPy.tic_tac_toe_place_mark, MainPy.make_move, hg,
      if_neg hne, placeMarkAction, resultPayloadStr]
    by_cases hsucc : ((g.make_move (GameAction.mk "place_mark"
        [("row", PValue.int row), ("col", PValue.int col)] p)).1).success =
        true
    · simp [hsucc]
    · simp [hsucc]
  · intro ht
    have hne : ¬ (g.type ≠ "CartPole-v1") := fun hcon => hcon ht
    simp only [MainPy.cartpole_move_left, MainPy.gymConvenience,
      MainPy.make_move, hg, if_neg hne, cartLeftAction, resultPayloadStr]
    by_cases hsucc : ((g.make_move (GameAction.mk "gym_step"
        [("action", PValue.int 0)] p)).1).success = true
    · simp [hsucc]
    · simp [hsucc]

/-- Witness for C2's amended theorem: on the live tic-tac-toe fixture the
convenience command and the equivalent `make_move` produce the same registry
state. -/
theorem convenience_forwards_same_action_witness :
    (MainPy.tic_tac_toe_place_mark regT "t1" 0 0 "alice").2 =
      (MainPy.make_move regT "t1" "place_mark"
        [("row", PValue.int 0), ("col", PValue.int 0)] "alice").2 := by
  have h := convenience_forwards_same_action regT "t1" "alice" 0 0 tttLive
    (by decide)
  exact (h.1 (by decide)).1

end GymMcp
